import Mathlib

/-!
Verification of the game-session framework of the Celebration-Buddy Slack bot
(`src/main.py`).  The Python functions are shallowly embedded as pure Lean
functions: per-game session state becomes a structure, each `handle_*` turn
handler becomes a function from the incoming (already trimmed and uppercased)
text and the current session state to the updated session (`none` = session
deleted from `active_games`) together with an abstraction of the reply that
was sent, and external effects (Gemini calls, HTTP fetches, `random`) become
explicit parameters carrying the external result.
-/

/-! ## Wordle feedback (`evaluate_guess`, src/main.py:395-403) -/

/-- Per-letter feedback code: 🟩 (exact), 🟨 (present, wrong position),
⬛ (absent). -/
inductive Tile
  | green
  | yellow
  | black
deriving DecidableEq

/-- `target_list[target_list.index(c)] = None`: blank out the first occurrence
of letter `c` in the working copy of the target. -/
def removeFirst (c : Char) : List (Option Char) → List (Option Char)
  | [] => []
  | x :: xs => if x = some c then none :: xs else x :: removeFirst c xs

/-- Second pass of `evaluate_guess`: positions already consumed by pass 1
(`none` in the guess working copy) keep their 🟩; a remaining guess letter
still occurring in the target working copy becomes 🟨 and consumes that
occurrence; otherwise ⬛. -/
def evalPass2 : List (Option Char) → List (Option Char) → List Tile
  | [], _ => []
  | none :: gs, ts => Tile.green :: evalPass2 gs ts
  | some c :: gs, ts =>
    if some c ∈ ts then Tile.yellow :: evalPass2 gs (removeFirst c ts)
    else Tile.black :: evalPass2 gs ts

/-- First pass applied to the guess working copy: exact-position matches are
consumed (set to `None`). -/
def gsOf (pairs : List (Char × Char)) : List (Option Char) :=
  pairs.map (fun p => if p.1 = p.2 then none else some p.1)

/-- First pass applied to the target working copy: exact-position matches are
consumed (set to `None`). -/
def tsOf (pairs : List (Char × Char)) : List (Option Char) :=
  pairs.map (fun p => if p.1 = p.2 then none else some p.2)

/-- `evaluate_guess(guess, target)` from src/main.py:395-403, the two-pass
Wordle feedback algorithm. -/
def evaluate_guess (guess target : List Char) : List Tile :=
  evalPass2 (gsOf (guess.zip target)) (tsOf (guess.zip target))

/-- Number of positions whose guess letter is `c` and whose code is not ⬛
(i.e. letters of the guess "marked present or exact"). -/
def countMarked (c : Char) : List (Char × Char) → List Tile → Nat
  | [], _ => 0
  | _, [] => 0
  | (_, _) :: ps, Tile.black :: tiles => countMarked c ps tiles
  | (a, _) :: ps, _ :: tiles => (if a = c then 1 else 0) + countMarked c ps tiles

/-- Occurrences of `some c` in a working copy of the target. -/
def countOpt (c : Char) : List (Option Char) → Nat
  | [] => 0
  | x :: xs => (if x = some c then 1 else 0) + countOpt c xs

/-- Positions where guess and target agree on the letter `c` (pass-1 greens
for `c`). -/
def countGreens (c : Char) : List (Char × Char) → Nat
  | [] => 0
  | (a, b) :: ps => (if a = b ∧ a = c then 1 else 0) + countGreens c ps

/-- Occurrences of the letter `c` in a word. -/
def countChar (c : Char) : List Char → Nat
  | [] => 0
  | x :: xs => (if x = c then 1 else 0) + countChar c xs

lemma countOpt_removeFirst_self (c : Char) :
    ∀ ts : List (Option Char), some c ∈ ts →
      countOpt c (removeFirst c ts) + 1 = countOpt c ts := by
  intro ts
  induction ts with
  | nil => intro h; simp at h
  | cons x xs ih =>
    intro h
    by_cases hx : x = some c
    · subst hx
      simp [removeFirst, countOpt]
      omega
    · have hmem : some c ∈ xs := by
        rcases List.mem_cons.mp h with h1 | h1
        · exact absurd h1.symm hx
        · exact h1
      simp only [removeFirst, if_neg hx, countOpt]
      have := ih hmem
      omega

lemma countOpt_removeFirst_other (c c' : Char) (hne : c' ≠ c) :
    ∀ ts : List (Option Char),
      countOpt c (removeFirst c' ts) = countOpt c ts := by
  intro ts
  induction ts with
  | nil => simp [removeFirst]
  | cons x xs ih =>
    by_cases hx : x = some c'
    · subst hx
      have h2 : (some c' : Option Char) ≠ some c := by simpa using hne
      simp [removeFirst, countOpt, h2]
    · simp only [removeFirst, if_neg hx, countOpt, ih]

/-- Core accounting bound: the marks produced on top of the pass-1 greens
never exceed the greens plus what the target working copy still holds, so no
target letter can satisfy two guess letters. -/
lemma countMarked_le (c : Char) :
    ∀ (pairs : List (Char × Char)) (ts : List (Option Char)),
      countMarked c pairs (evalPass2 (gsOf pairs) ts)
        ≤ countGreens c pairs + countOpt c ts := by
  intro pairs
  induction pairs with
  | nil => intro ts; simp [gsOf, evalPass2, countMarked, countGreens]
  | cons p rest ih =>
    intro ts
    obtain ⟨a, b⟩ := p
    by_cases hab : a = b
    · subst hab
      have hstep : evalPass2 (gsOf ((a, a) :: rest)) ts
          = Tile.green :: evalPass2 (gsOf rest) ts := by
        simp [gsOf, evalPass2]
      rw [hstep]
      have H := ih ts
      by_cases hac : a = c <;> simp only [countMarked, countGreens] <;>
        simp [hac] <;> omega
    · have hgs : gsOf ((a, b) :: rest) = some a :: gsOf rest := by
        simp [gsOf, hab]
      rw [hgs]
      by_cases hmem : (some a : Option Char) ∈ ts
      · have hstep : evalPass2 (some a :: gsOf rest) ts
            = Tile.yellow :: evalPass2 (gsOf rest) (removeFirst a ts) := by
          simp [evalPass2, hmem]
        rw [hstep]
        by_cases hac : a = c
        · subst hac
          have h1 := countOpt_removeFirst_self a ts hmem
          have H := ih (removeFirst a ts)
          simp only [countMarked, countGreens]
          simp [hab]
          omega
        · have h1 := countOpt_removeFirst_other c a hac ts
          have H := ih (removeFirst a ts)
          simp only [countMarked, countGreens]
          simp [hab, hac]
          omega
      · have hstep : evalPass2 (some a :: gsOf rest) ts
            = Tile.black :: evalPass2 (gsOf rest) ts := by
          simp [evalPass2, hmem]
        rw [hstep]
        have H := ih ts
        simp only [countMarked, countGreens]
        simp [hab]
        omega

/-- Pass-1 greens plus the surviving target working copy account exactly for
every occurrence of `c` in the (zipped) target. -/
lemma countGreens_add_countOpt_tsOf (c : Char) :
    ∀ pairs : List (Char × Char),
      countGreens c pairs + countOpt c (tsOf pairs)
        = countChar c (pairs.map Prod.snd) := by
  intro pairs
  induction pairs with
  | nil => simp [countGreens, tsOf, countOpt, countChar]
  | cons p rest ih =>
    obtain ⟨a, b⟩ := p
    have htsOf : tsOf ((a, b) :: rest)
        = (if a = b then none else some b) :: tsOf rest := by
      simp [tsOf]
    rw [htsOf]
    by_cases hab : a = b
    · subst hab
      by_cases hac : a = c <;>
        · simp only [countGreens, countOpt, countChar, List.map_cons]
          simp [hac]
          omega
    · by_cases hbc : b = c
      · subst hbc
        simp only [countGreens, countOpt, countChar, List.map_cons]
        simp [hab]
        omega
      · simp only [countGreens, countOpt, countChar, List.map_cons]
        simp [hab, hbc, ih]

lemma map_snd_zip_of_length_eq :
    ∀ l₁ l₂ : List Char, l₁.length = l₂.length →
      (l₁.zip l₂).map Prod.snd = l₂ := by
  intro l₁
  induction l₁ with
  | nil =>
    intro l₂ h
    cases l₂ with
    | nil => rfl
    | cons x xs => simp at h
  | cons x xs ih =>
    intro l₂ h
    cases l₂ with
    | nil => simp at h
    | cons y ys =>
      rw [List.zip_cons_cons, List.map_cons, ih ys (by simpa using h)]

/-! ## Python string helpers shared by the handlers -/

/-- Python `str.upper()` (ASCII inputs). -/
def pyUpper (s : String) : String := String.mk (s.toList.map Char.toUpper)

/-- Python `str.lower()` (ASCII inputs). -/
def pyLower (s : String) : String := String.mk (s.toList.map Char.toLower)

/-- Python `str.strip()`: drop leading and trailing whitespace. -/
def pyStrip (s : String) : String :=
  String.mk
    (((s.toList.dropWhile Char.isWhitespace).reverse.dropWhile
        Char.isWhitespace).reverse)

/-- Python `str.isalpha()`: non-empty and all alphabetic. -/
def pyIsAlpha (s : String) : Bool :=
  s.toList.length > 0 && s.toList.all Char.isAlpha

/-- Digits of a decimal literal folded to a natural number. -/
def natOfDigits (l : List Char) : Nat :=
  l.foldl (fun acc c => acc * 10 + (c.toNat - 48)) 0

/-- Python `int(text)` on the inputs this bot can see: optional surrounding
whitespace, an optional sign, then decimal digits; anything else raises
`ValueError` (`none`). -/
def parseIntPy (text : String) : Option Int :=
  let core : List Char → Int → Option Int := fun ds sign =>
    if ds ≠ [] && ds.all Char.isDigit then some (sign * natOfDigits ds) else none
  match (pyStrip text).toList with
  | '+' :: rest => core rest 1
  | '-' :: rest => core rest (-1)
  | l => core l 1

/-! ## Wordle dictionary and AI validation (`is_real_word_with_ai`,
src/main.py:405-423) -/

/-- The valid-guess dictionary: the in-memory `VALID_GUESSES` set and the
lines appended to the backing `valid_guesses.txt` file. -/
structure DictState where
  valid_guesses : List String
  file_lines : List String
deriving DecidableEq

/-- `is_real_word_with_ai(word)`: `aiResponse` is the Gemini reply text
(`none` models a missing model or an exception).  On a `yes` answer the word
is appended (lower-cased) to the backing file and inserted into the in-memory
set (`set.add`, an idempotent insert). -/
def is_real_word_with_ai (aiResponse : Option String) (word : String)
    (d : DictState) : Bool × DictState :=
  match aiResponse with
  | none => (false, d)
  | some resp =>
    if pyLower (pyStrip resp) = "yes" then
      (true,
       { valid_guesses :=
           if word ∈ d.valid_guesses then d.valid_guesses
           else d.valid_guesses ++ [word],
         file_lines := d.file_lines ++ [pyLower word] })
    else (false, d)

/-! ## Wordle turn handler (`handle_wordle_guess`, src/main.py:123-144) -/

/-- `{'word': ..., 'guesses': [...]}` of a Wordle session. -/
structure WordleState where
  word : String
  guesses : List String
deriving DecidableEq

/-- Abstraction of the reply `handle_wordle_guess` sends: the history entries
carry each prior guess with its feedback. -/
inductive WordleReply
  | notFiveLetters
  | notInDictionary
  | winMsg (history : List (String × List Tile)) (word : String)
  | loseMsg (history : List (String × List Tile)) (word : String)
  | progress (history : List (String × List Tile)) (remaining : Nat)
deriving DecidableEq

/-- `handle_wordle_guess(guess, ...)`.  Returns the surviving session
(`none` = deleted), the reply, and the possibly grown dictionary. -/
def handle_wordle_guess (guess : String) (aiResponse : Option String)
    (d : DictState) (s : WordleState) :
    Option WordleState × WordleReply × DictState :=
  if ¬(guess.toList.length = 5 ∧ pyIsAlpha guess) then
    (some s, .notFiveLetters, d)
  else
    let checked :=
      if guess ∈ d.valid_guesses then (true, d)
      else is_real_word_with_ai aiResponse guess d
    if ¬checked.1 then (some s, .notInDictionary, checked.2)
    else
      let guesses' := s.guesses ++ [guess]
      let hist := guesses'.map (fun g => (g, evaluate_guess g.toList s.word.toList))
      if guess = s.word then (none, .winMsg hist s.word, checked.2)
      else if guesses'.length ≥ 6 then (none, .loseMsg hist s.word, checked.2)
      else (some { s with guesses := guesses' },
            .progress hist (6 - guesses'.length), checked.2)

/-! ## Number guesser (`handle_number_guesser_guess`, src/main.py:156-174) -/

/-- `{'target': ..., 'guesses': ..., 'limit': ...}` of a Higher-or-Lower
session. -/
structure NumState where
  target : Int
  guesses : Nat
  limit : Nat
deriving DecidableEq

/-- Abstraction of the reply `handle_number_guesser_guess` sends; `win` and
`lose` reveal the target, the hints carry the echoed guess and the
remaining-tries count. -/
inductive NumReply
  | notANumber
  | win (target : Int) (tries : Nat)
  | lose (target : Int)
  | tooLow (guess : Int) (remaining : Nat)
  | tooHigh (guess : Int) (remaining : Nat)
deriving DecidableEq

/-- `handle_number_guesser_guess(guess_text, ...)`. -/
def handle_number_guesser_guess (text : String) (s : NumState) :
    Option NumState × NumReply :=
  match parseIntPy text with
  | none => (some s, .notANumber)
  | some g =>
    let guesses' := s.guesses + 1
    if g = s.target then (none, .win s.target guesses')
    else if guesses' ≥ s.limit then (none, .lose s.target)
    else if g < s.target then
      (some { s with guesses := guesses' }, .tooLow g (s.limit - guesses'))
    else
      (some { s with guesses := guesses' }, .tooHigh g (s.limit - guesses'))

/-! ## Trivia (`start_trivia_game` src/main.py:176-210,
`_parse_trivia_guess` src/main.py:222-228,
`handle_trivia_guess` src/main.py:230-259) -/

/-- One shuffled multiple-choice question as stored in the session. -/
structure TriviaQ where
  category : Option String
  question : String
  options : List String
  correct_index : Nat
deriving DecidableEq

/-- Placeholder question (the Python code would raise `IndexError` instead of
reading it; the theorems only apply to live sessions whose index is in
range). -/
def defaultTriviaQ : TriviaQ := { category := none, question := "", options := [], correct_index := 0 }

/-- `{'questions': ..., 'idx': ..., 'score': ...}` of a trivia session. -/
structure TriviaState where
  questions : List TriviaQ
  idx : Nat
  score : Nat
deriving DecidableEq

/-- Result of `_parse_trivia_guess(text)`: `("letter", i)`, `("index", i)` or
`("text", t)`. -/
inductive TriviaParseMode
  | letter (i : Nat)
  | index (i : Nat)
  | text (t : String)
deriving DecidableEq

/-- `_parse_trivia_guess(text)`. -/
def parseTriviaGuess (text : String) : TriviaParseMode :=
  let t := pyUpper (pyStrip text)
  if t ∈ (["A", "B", "C", "D"] : List String) then
    .letter (["A", "B", "C", "D"].findIdx (· == t))
  else if t ∈ (["1", "2", "3", "4"] : List String) then
    .index (natOfDigits t.toList - 1)
  else .text t

/-- The `chosen_index` computed by `handle_trivia_guess`: a letter or digit
maps straight to an option index, free text is matched case-insensitively
against the option strings (first hit wins). -/
def trivia_chosen_index (guess : String) (q : TriviaQ) : Option Nat :=
  match parseTriviaGuess guess with
  | .letter v => some v
  | .index v => some v
  | .text val => q.options.findIdx? (fun opt => pyUpper (pyStrip opt) == val)

/-- Abstraction of the replies `handle_trivia_guess` sends. -/
inductive TriviaReply
  | answerWithABCD
  | correct
  | reveal (correctIdx : Nat) (correctText : String)
  | complete (score : Nat)
  | nextQuestion (q : TriviaQ) (qnum : Nat)
deriving DecidableEq

/-- `handle_trivia_guess(guess, ...)`. -/
def handle_trivia_guess (guess : String) (state : TriviaState) :
    Option TriviaState × List TriviaReply :=
  let q := state.questions.getD state.idx defaultTriviaQ
  match trivia_chosen_index guess q with
  | none => (some state, [.answerWithABCD])
  | some ci =>
    if ci < 4 then
      let score' := if ci = q.correct_index then state.score + 1 else state.score
      let fb := if ci = q.correct_index then TriviaReply.correct
                else TriviaReply.reveal q.correct_index
                       (q.options.getD q.correct_index "")
      let idx' := state.idx + 1
      if idx' ≥ 5 then (none, [fb, .complete score'])
      else (some { state with idx := idx', score := score' },
            [fb, .nextQuestion (state.questions.getD idx' defaultTriviaQ) (idx' + 1)])
    else (some state, [.answerWithABCD])

/-- One raw item of the Open Trivia DB response (fields already
HTML-unescaped). -/
structure TriviaItem where
  category : Option String
  question : String
  correct_answer : String
  incorrect_answers : List String
deriving DecidableEq

/-- Abstraction of what `start_trivia_game` sends. -/
inductive TriviaStartReply
  | apology
  | firstQuestion (q : TriviaQ)
deriving DecidableEq

/-- The question-building loop of `start_trivia_game`: 3 wrong answers plus
the right one, shuffled (`shuffle` stands for `random.shuffle`'s output), and
the post-shuffle index of the correct option recorded. -/
def build_trivia_questions (shuffle : List String → List String)
    (items : List TriviaItem) : List TriviaQ :=
  items.map (fun it =>
    let options := shuffle (it.incorrect_answers ++ [it.correct_answer])
    { category := it.category, question := it.question, options := options,
      correct_index := options.findIdx (· == it.correct_answer) })

/-! ## Hangman (`_render_hangman_board` src/main.py:262-266,
`handle_hangman_guess` src/main.py:287-311) -/

/-- `{'target': ..., 'guessed_letters': ..., 'lives': ...}` of a hangman
session.  `guessed_letters` is a Python `set`; since a letter is only ever
added after the already-guessed check, a duplicate-free list models it. -/
structure HangmanState where
  target : String
  guessed_letters : List Char
  lives : Int
deriving DecidableEq

/-- `_render_hangman_board(word, guessed_letters)`. -/
def render_hangman_board (word : String) (gl : List Char) : String :=
  "`" ++
    pyStrip (String.join
      (word.toList.map (fun l => if l ∈ gl then String.mk [l, ' '] else "_ ")))
  ++ "`"

/-- Insertion step of `sorted(...)` over guessed letters. -/
def insertChar (c : Char) : List Char → List Char
  | [] => [c]
  | x :: xs => if c ≤ x then c :: x :: xs else x :: insertChar c xs

/-- `sorted(list(guessed_letters))`. -/
def sortChars : List Char → List Char
  | [] => []
  | x :: xs => insertChar x (sortChars xs)

/-- Abstraction of the replies `handle_hangman_guess` sends. -/
inductive HangFeedback
  | miss (c : Char) (livesLeft : Int)
  | hit (c : Char)
deriving DecidableEq

/-- The reply of one hangman turn. -/
inductive HangReply
  | winFull (target : String)
  | invalidInput
  | alreadyGuessed (c : Char)
  | winBoard (board : String) (fb : HangFeedback) (target : String)
  | lossBoard (board : String) (fb : HangFeedback) (target : String)
  | continueBoard (board : String) (fb : HangFeedback) (guessedSoFar : List Char)
deriving DecidableEq

/-- `handle_hangman_guess(guess, ...)`. -/
def handle_hangman_guess (guess : String) (s : HangmanState) :
    Option HangmanState × HangReply :=
  let target := s.target
  if guess.toList.length = target.toList.length ∧ guess = target then
    (none, .winFull target)
  else if ¬(guess.toList.length = 1 ∧ pyIsAlpha guess) then
    (some s, .invalidInput)
  else
    let c := guess.toList.getD 0 ' '
    if c ∈ s.guessed_letters then (some s, .alreadyGuessed c)
    else
      let gl' := c :: s.guessed_letters
      let lives' := if c ∉ target.toList then s.lives - 1 else s.lives
      let fb := if c ∉ target.toList then HangFeedback.miss c (s.lives - 1)
                else HangFeedback.hit c
      let board := render_hangman_board target gl'
      if target.toList.all (fun l => l ∈ gl') then
        (none, .winBoard board fb target)
      else if lives' ≤ 0 then (none, .lossBoard board fb target)
      else
        (some { target := target, guessed_letters := gl', lives := lives' },
         .continueBoard board fb (sortChars gl'))

/-- A user's guesses fed to the hangman handler one DM at a time; once the
session is deleted, later messages no longer reach the handler. -/
def runHangman (s : HangmanState) (inputs : List String) : Option HangmanState :=
  inputs.foldl
    (fun acc g =>
      match acc with
      | none => none
      | some st => (handle_hangman_guess g st).1)
    (some s)

/-! ## Session store and message router (`active_games`, `GAME_REGISTRY`
src/main.py:314-319, `handle_dm` src/main.py:831-865) -/

/-- `{'game_name': ..., 'state': ...}`: a value of the `active_games` map,
tagged with its game type. -/
inductive GameSession
  | wordle (s : WordleState)
  | numberGuesser (s : NumState)
  | trivia (s : TriviaState)
  | hangman (s : HangmanState)
deriving DecidableEq

/-- The `game_name` string stored in a session. -/
def gameName : GameSession → String
  | .wordle _ => "wordle"
  | .numberGuesser _ => "number_guesser"
  | .trivia _ => "trivia"
  | .hangman _ => "hangman"

/-- Identifier of a game's turn handler in `GAME_REGISTRY`. -/
inductive HandlerTag
  | wordleTurn
  | numberGuesserTurn
  | triviaTurn
  | hangmanTurn
deriving DecidableEq

/-- The `handler` column of `GAME_REGISTRY` (src/main.py:314-319); `none`
models a `KeyError` on an unregistered key. -/
def GAME_REGISTRY_handler (key : String) : Option HandlerTag :=
  if key = "wordle" then some .wordleTurn
  else if key = "number_guesser" then some .numberGuesserTurn
  else if key = "trivia" then some .triviaTurn
  else if key = "hangman" then some .hangmanTurn
  else none

/-- `re.fullmatch(r"(\d{2}-\d{2})", text)`: exactly two digits, a dash, two
digits. -/
def birthday_fullmatch (t : String) : Bool :=
  match t.toList with
  | [a, b, '-', c, d] => a.isDigit && b.isDigit && c.isDigit && d.isDigit
  | _ => false

/-- What `handle_dm` decides to do with an inbound direct message. -/
inductive RouteDecision
  | game (h : HandlerTag) (normalizedText : String)
  | keyError
  | birthdaySubmission (dateStr : String)
  | noGameAction
deriving DecidableEq

/-- The routing prefix of `handle_dm` (src/main.py:831-845): strip the text;
a user with an active session has the uppercased text dispatched to the
session's registered handler and nothing else happens; only otherwise is the
birthday-date pattern considered. -/
def handle_dm_route (store : String → Option GameSession)
    (user text : String) : RouteDecision :=
  let t := pyStrip text
  match store user with
  | some sess =>
    match GAME_REGISTRY_handler (gameName sess) with
    | some h => .game h (pyUpper t)
    | none => .keyError
  | none =>
    if birthday_fullmatch t then .birthdaySubmission t else .noGameAction

/-- `start_trivia_game(user_id, client)` acting on the session store.
`fetch` is the outcome of the HTTP fetch: `none` models an unreachable
source or an error status (an exception before the parse), `some []` the
"No questions returned" case; both fall into the `except` branch, which
apologises and never touches `active_games`. -/
def start_trivia_game (shuffle : List String → List String)
    (fetch : Option (List TriviaItem))
    (store : String → Option GameSession) (user : String) :
    (String → Option GameSession) × TriviaStartReply :=
  match fetch with
  | none => (store, .apology)
  | some [] => (store, .apology)
  | some items =>
    let questions := build_trivia_questions shuffle items
    (fun u =>
      if u = user then
        some (.trivia { questions := questions, idx := 0, score := 0 })
      else store u,
     .firstQuestion (questions.getD 0 defaultTriviaQ))

/-! ## Wordle fallback word (`get_fallback_word`, src/main.py:391-393) -/

/-- State of the process-wide `random` module PRNG.  Only its functional
behaviour matters here: `random.seed(n)` replaces the state by a value
depending on nothing but `n`, and `random.choice` picks an element as a
function of the current state and the list. -/
structure PyRandom where
  state : Nat
deriving DecidableEq

/-- `random.seed(n)`: the resulting PRNG state is a pure function of `n`
alone (the previous state is discarded). -/
def random_seed (n : Nat) : PyRandom := { state := n }

/-- `random.choice(l)`: a pure function of the PRNG state and the list,
returning a member of the list together with the advanced state. -/
def random_choice (r : PyRandom) (l : List String) : String × PyRandom :=
  (l.getD (r.state % l.length) "", { state := r.state + 1 })

/-- `get_fallback_word()` (src/main.py:391-393): reseed the module PRNG with
today's ordinal, then choose from `WORDLE_ANSWERS`.  `r` is the PRNG state
the calling process happens to have before the call. -/
def get_fallback_word (r : PyRandom) (todayOrdinal : Nat)
    (wordleAnswers : List String) : String × PyRandom :=
  let _ := r
  let r1 := random_seed todayOrdinal
  random_choice r1 wordleAnswers

/-! ## Shared helper lemmas and demo values -/

lemma getD_mem (l : List String) : ∀ n, n < l.length → l.getD n "" ∈ l := by
  induction l with
  | nil => intro n h; simp at h
  | cons x xs ih =>
    intro n h
    cases n with
    | zero => simp [List.getD]
    | succ m =>
      simp only [List.getD_cons_succ]
      exact List.mem_cons_of_mem x (ih m (by simpa using h))

/-- A session store with one active hangman game for user `U1`, as left by
`start_hangman_game`. -/
def demoStore : String → Option GameSession :=
  fun u =>
    if u = "U1" then
      some (.hangman { target := "BRAVE", guessed_letters := [], lives := 6 })
    else none

/-- A freshly started five-question trivia session. -/
def demoTrivia : TriviaState :=
  { questions :=
      List.replicate 5
        { category := none, question := "Q", options := ["W", "X", "Y", "Z"],
          correct_index := 2 },
    idx := 0, score := 0 }

/-! ## C1 -/

/-- C1: the two-pass `evaluate_guess` never marks more guess letters `c` as
exact/present than `c` occurs in the target (one target letter never
satisfies two guess letters), and for target CRANE the guess CRATE codes as
exact, exact, exact, absent, exact. -/
theorem wordle_two_pass_feedback (guess target : List Char) (c : Char)
    (hg : guess.length = 5) (ht : target.length = 5) :
    countMarked c (guess.zip target) (evaluate_guess guess target)
      ≤ countChar c target
    ∧ evaluate_guess "CRATE".toList "CRANE".toList
      = [Tile.green, Tile.green, Tile.green, Tile.black, Tile.green] := by
  constructor
  · have h1 := countMarked_le c (guess.zip target) (tsOf (guess.zip target))
    have h2 := countGreens_add_countOpt_tsOf c (guess.zip target)
    have h3 := map_snd_zip_of_length_eq guess target (by omega)
    calc countMarked c (guess.zip target) (evaluate_guess guess target)
        ≤ countGreens c (guess.zip target)
            + countOpt c (tsOf (guess.zip target)) := h1
      _ = countChar c ((guess.zip target).map Prod.snd) := h2
      _ = countChar c target := by rw [h3]
  · decide

/-- C1 witness: the duplicate-letter bound instantiated at target ALLOW and
guess LOLLY for the letter L, plus the CRANE/CRATE codes. -/
theorem wordle_two_pass_feedback_witness :
    countMarked 'L' ("LOLLY".toList.zip "ALLOW".toList)
        (evaluate_guess "LOLLY".toList "ALLOW".toList)
      ≤ countChar 'L' "ALLOW".toList
    ∧ evaluate_guess "CRATE".toList "CRANE".toList
      = [Tile.green, Tile.green, Tile.green, Tile.black, Tile.green] :=
  wordle_two_pass_feedback "LOLLY".toList "ALLOW".toList 'L' (by decide) (by decide)

/-! ## C2 -/

/-- C2: a user with an active session always has the trimmed, uppercased
message text dispatched to the handler registered for the session's game
type, never to the birthday-submission flow, even though text such as
"05-12" matches the birthday-date pattern. -/
theorem router_precedence (store : String → Option GameSession)
    (user text : String) (sess : GameSession)
    (hs : store user = some sess) :
    (∃ h, GAME_REGISTRY_handler (gameName sess) = some h
        ∧ handle_dm_route store user text = .game h (pyUpper (pyStrip text)))
    ∧ (∀ d, handle_dm_route store user text ≠ .birthdaySubmission d)
    ∧ birthday_fullmatch "05-12" = true := by
  have hreg : ∃ h, GAME_REGISTRY_handler (gameName sess) = some h := by
    cases sess <;> exact ⟨_, rfl⟩
  obtain ⟨h, hh⟩ := hreg
  refine ⟨⟨h, hh, ?_⟩, ?_, by decide⟩
  · simp [handle_dm_route, hs, hh]
  · intro d hcontra
    simp [handle_dm_route, hs, hh] at hcontra

/-- C2 witness: a user mid-hangman who sends "05-12" has it routed to the
hangman handler. -/
theorem router_precedence_witness :
    (∃ h, GAME_REGISTRY_handler
            (gameName (.hangman { target := "BRAVE", guessed_letters := [], lives := 6 }))
          = some h
        ∧ handle_dm_route demoStore "U1" "05-12" = .game h (pyUpper (pyStrip "05-12")))
    ∧ (∀ d, handle_dm_route demoStore "U1" "05-12" ≠ .birthdaySubmission d)
    ∧ birthday_fullmatch "05-12" = true :=
  router_precedence demoStore "U1" "05-12"
    (.hangman { target := "BRAVE", guessed_letters := [], lives := 6 }) (by decide)

/-! ## C3 -/

/-- C3: on a live trivia session (index below 5, score bounded by the
index), a validly parsed answer advances `idx` by exactly one and bumps
`score` exactly when the chosen index equals `correct_index`; the session is
deleted precisely when the index reaches 5, with the final score at most 5,
and otherwise the next question is sent and the session survives. -/
theorem trivia_progression (s : TriviaState) (guess : String) (ci : Nat)
    (hidx : s.idx < 5) (hscore : s.score ≤ s.idx)
    (hparse : trivia_chosen_index guess (s.questions.getD s.idx defaultTriviaQ)
        = some ci)
    (hci : ci < 4) :
    ((handle_trivia_guess guess s).1 = none ↔ s.idx + 1 = 5)
    ∧ (s.idx + 1 = 5 →
        (handle_trivia_guess guess s).1 = none
        ∧ (if ci = (s.questions.getD s.idx defaultTriviaQ).correct_index
             then s.score + 1 else s.score) ≤ 5
        ∧ TriviaReply.complete
            (if ci = (s.questions.getD s.idx defaultTriviaQ).correct_index
               then s.score + 1 else s.score)
            ∈ (handle_trivia_guess guess s).2)
    ∧ (s.idx + 1 < 5 →
        (handle_trivia_guess guess s).1
          = some { questions := s.questions, idx := s.idx + 1,
                   score :=
                     if ci = (s.questions.getD s.idx defaultTriviaQ).correct_index
                       then s.score + 1 else s.score }
        ∧ TriviaReply.nextQuestion
            (s.questions.getD (s.idx + 1) defaultTriviaQ) (s.idx + 1 + 1)
            ∈ (handle_trivia_guess guess s).2) := by
  have hparse' := hparse
  simp only [List.getD_eq_getElem?_getD] at hparse'
  refine ⟨?_, ?_, ?_⟩
  · by_cases h5 : s.idx + 1 ≥ 5
    · simp [handle_trivia_guess, hparse', hci, h5]
      omega
    · simp [handle_trivia_guess, hparse', hci, h5]
      omega
  · intro h5
    have h5' : s.idx + 1 ≥ 5 := by omega
    refine ⟨by simp [handle_trivia_guess, hparse', hci, h5'], ?_, ?_⟩
    · split_ifs <;> omega
    · simp [handle_trivia_guess, hparse', hci, h5']
  · intro h5
    have h5' : ¬ s.idx + 1 ≥ 5 := by omega
    exact ⟨by simp [handle_trivia_guess, hparse', hci, h5'],
           by simp [handle_trivia_guess, hparse', hci, h5']⟩

/-- C3 witness: answering "A" on a fresh five-question session advances the
index to 1, scores 0 (the stored correct option is C), and sends question
2. -/
theorem trivia_progression_witness :
    (handle_trivia_guess "A" demoTrivia).1
      = some { questions := demoTrivia.questions, idx := demoTrivia.idx + 1,
               score :=
                 if 0 = (demoTrivia.questions.getD demoTrivia.idx
                           defaultTriviaQ).correct_index
                   then demoTrivia.score + 1 else demoTrivia.score }
    ∧ TriviaReply.nextQuestion
        (demoTrivia.questions.getD (demoTrivia.idx + 1) defaultTriviaQ)
        (demoTrivia.idx + 1 + 1)
        ∈ (handle_trivia_guess "A" demoTrivia).2 :=
  (trivia_progression demoTrivia "A" 0 (by decide) (by decide) (by decide)
      (by decide)).2.2 (by decide)

/-! ## C4 -/

/-- C4 counterexample: from lives 6 on target BRAVE, guessing Z five times
and then Q leaves the session alive with 4 lives (the four repeated Z
guesses are rejected without penalty), so this sequence does not reach
lives 0 as the claim's concrete scenario asserts. -/
theorem hangman_repeats_cost_no_life :
    (runHangman { target := "BRAVE", guessed_letters := [], lives := 6 }
        ["Z", "Z", "Z", "Z", "Z", "Q"]).map HangmanState.lives = some 4
    ∧ ¬ (runHangman { target := "BRAVE", guessed_letters := [], lives := 6 }
        ["Z", "Z", "Z", "Z", "Z", "Q"]).map HangmanState.lives = some 0 :=
  ⟨by decide, by decide⟩

/-- C4 (amended): a letter already in `guessedLetters` is rejected with no
state change; a new letter absent from the target costs exactly one life and
lives never drop below 0 on a live session (deletion happens exactly when the
last life is spent); a new present letter costs nothing and wins when it
completes the word; guessing the full target word wins immediately.  In the
concrete scenario, Z five times then Q leaves 4 lives (repeats rejected, not
double-penalized), while six distinct wrong letters reach 0 exactly at the
6th and delete the session. -/
theorem hangman_turn_rules :
    (∀ s : HangmanState, handle_hangman_guess s.target s = (none, .winFull s.target))
    ∧ (∀ (s : HangmanState) (c : Char), String.mk [c] ≠ s.target →
        c.isAlpha = true → c ∈ s.guessed_letters →
        handle_hangman_guess (String.mk [c]) s = (some s, .alreadyGuessed c))
    ∧ (∀ (s : HangmanState) (c : Char), String.mk [c] ≠ s.target →
        c.isAlpha = true → c ∉ s.guessed_letters → c ∉ s.target.toList →
        1 ≤ s.lives → ¬(∀ l ∈ s.target.toList, l ∈ s.guessed_letters) →
        (0 : Int) ≤ s.lives - 1
        ∧ (s.lives = 1 →
            handle_hangman_guess (String.mk [c]) s
              = (none,
                 .lossBoard (render_hangman_board s.target (c :: s.guessed_letters))
                   (HangFeedback.miss c (s.lives - 1)) s.target))
        ∧ (1 < s.lives →
            handle_hangman_guess (String.mk [c]) s
              = (some { target := s.target,
                        guessed_letters := c :: s.guessed_letters,
                        lives := s.lives - 1 },
                 .continueBoard (render_hangman_board s.target (c :: s.guessed_letters))
                   (HangFeedback.miss c (s.lives - 1))
                   (sortChars (c :: s.guessed_letters)))))
    ∧ (∀ (s : HangmanState) (c : Char), String.mk [c] ≠ s.target →
        c.isAlpha = true → c ∉ s.guessed_letters → c ∈ s.target.toList →
        ((∀ l ∈ s.target.toList, l ∈ c :: s.guessed_letters) →
            handle_hangman_guess (String.mk [c]) s
              = (none,
                 .winBoard (render_hangman_board s.target (c :: s.guessed_letters))
                   (HangFeedback.hit c) s.target))
        ∧ (1 ≤ s.lives → ¬(∀ l ∈ s.target.toList, l ∈ c :: s.guessed_letters) →
            handle_hangman_guess (String.mk [c]) s
              = (some { target := s.target,
                        guessed_letters := c :: s.guessed_letters,
                        lives := s.lives },
                 .continueBoard (render_hangman_board s.target (c :: s.guessed_letters))
                   (HangFeedback.hit c) (sortChars (c :: s.guessed_letters)))))
    ∧ (runHangman { target := "BRAVE", guessed_letters := [], lives := 6 }
        ["Z", "Z", "Z", "Z", "Z", "Q"]
        = some { target := "BRAVE", guessed_letters := ['Q', 'Z'], lives := 4 })
    ∧ (runHangman { target := "BRAVE", guessed_letters := [], lives := 6 }
        ["Z", "Q", "X", "J", "K"]
        = some { target := "BRAVE", guessed_letters := ['K', 'J', 'X', 'Q', 'Z'],
                 lives := 1 })
    ∧ runHangman { target := "BRAVE", guessed_letters := [], lives := 6 }
        ["Z", "Q", "X", "J", "K", "W"] = none := by
  refine ⟨?_, ?_, ?_, ?_, by decide, by decide, by decide⟩
  · intro s
    simp [handle_hangman_guess]
  · intro s c hne halpha hmem
    have h1 : ¬(1 = s.target.length ∧ String.mk [c] = s.target) := by
      rintro ⟨-, h⟩; exact hne h
    simp [handle_hangman_guess, h1, pyIsAlpha, String.toList, halpha, hmem]
  · intro s c hne halpha hnotmem hnotin hlives hnotdone
    have h1 : ¬(1 = s.target.length ∧ String.mk [c] = s.target) := by
      rintro ⟨-, h⟩; exact hne h
    have hnotin' : c ∉ s.target.data := hnotin
    have hcov : ¬∀ x ∈ s.target.data, x = c ∨ x ∈ s.guessed_letters := by
      intro hall
      apply hnotdone
      intro l hl
      rcases hall l hl with h | h
      · exact absurd (h ▸ hl) hnotin
      · exact h
    refine ⟨by omega, ?_, ?_⟩
    · intro hl1
      have hle : s.lives - 1 ≤ 0 := by omega
      simp [handle_hangman_guess, h1, pyIsAlpha, String.toList, halpha,
        hnotmem, hnotin', hcov, hle]
    · intro hl2
      have hle : ¬ s.lives - 1 ≤ 0 := by omega
      simp [handle_hangman_guess, h1, pyIsAlpha, String.toList, halpha,
        hnotmem, hnotin', hcov, hle]
  · intro s c hne halpha hnotmem hin
    have h1 : ¬(1 = s.target.length ∧ String.mk [c] = s.target) := by
      rintro ⟨-, h⟩; exact hne h
    have hin' : c ∈ s.target.data := hin
    constructor
    · intro hall
      have hall' : ∀ x ∈ s.target.data, x = c ∨ x ∈ s.guessed_letters :=
        fun x hx => List.mem_cons.mp (hall x hx)
      simp [handle_hangman_guess, h1, pyIsAlpha, String.toList, halpha,
        hnotmem, hin', hall']
      intro x hx hxc hxg
      rcases hall' x hx with h | h
      · exact absurd h hxc
      · exact absurd h hxg
    · intro hlives hnotall
      have hnotall' : ¬∀ x ∈ s.target.data, x = c ∨ x ∈ s.guessed_letters := by
        intro hall
        exact hnotall (fun l hl => List.mem_cons.mpr (hall l hl))
      have hle : ¬ s.lives ≤ 0 := by omega
      simp [handle_hangman_guess, h1, pyIsAlpha, String.toList, halpha,
        hnotmem, hin', hnotall', hle]

/-- C4 witness: the wrong-new-letter rule instantiated at target BRAVE,
first guess Z, 6 lives: exactly one life is spent and the session
survives. -/
theorem hangman_turn_rules_witness :
    handle_hangman_guess (String.mk ['Z'])
        { target := "BRAVE", guessed_letters := [], lives := 6 }
      = (some { target := "BRAVE", guessed_letters := ['Z'], lives := 6 - 1 },
         .continueBoard (render_hangman_board "BRAVE" ['Z'])
           (HangFeedback.miss 'Z' (6 - 1)) (sortChars ['Z'])) :=
  (hangman_turn_rules.2.2.1 { target := "BRAVE", guessed_letters := [], lives := 6 }
      'Z' (by decide) (by decide) (by decide) (by decide) (by decide)
      (by decide)).2.2 (by decide)

/-! ## C5 -/

/-- C5: with limit 6, a parsed guess equal to the target always wins (the
equality test runs before the limit test, so a correct 6th guess wins); a
wrong guess that makes `guesses` reach 6 loses and reveals the target; an
earlier wrong guess keeps the session with the count incremented and sends a
too-low/too-high hint carrying the remaining-tries count (no reveal). -/
theorem number_guesser_boundary (s : NumState) (text : String) (g : Int)
    (hparse : parseIntPy text = some g) (hlim : s.limit = 6)
    (hlive : s.guesses < 6) :
    (g = s.target →
       handle_number_guesser_guess text s = (none, .win s.target (s.guesses + 1)))
    ∧ (g ≠ s.target → s.guesses + 1 = 6 →
       handle_number_guesser_guess text s = (none, .lose s.target))
    ∧ (g ≠ s.target → s.guesses + 1 < 6 →
       (g < s.target →
          handle_number_guesser_guess text s
            = (some { s with guesses := s.guesses + 1 },
               .tooLow g (6 - (s.guesses + 1))))
       ∧ (s.target < g →
          handle_number_guesser_guess text s
            = (some { s with guesses := s.guesses + 1 },
               .tooHigh g (6 - (s.guesses + 1))))) := by
  refine ⟨?_, ?_, ?_⟩
  · intro hg
    simp [handle_number_guesser_guess, hparse, hg]
  · intro hg h6
    have hge : s.guesses + 1 ≥ s.limit := by omega
    simp [handle_number_guesser_guess, hparse, hg, hge]
  · intro hg h6
    have hge : ¬ s.guesses + 1 ≥ s.limit := by omega
    constructor
    · intro hlt
      simp [handle_number_guesser_guess, hparse, hg, hge, hlt, hlim]
      omega
    · intro hgt
      have hnlt : ¬ g < s.target := by omega
      simp [handle_number_guesser_guess, hparse, hg, hge, hnlt, hlim]
      omega

/-- C5 witness: target 50, limit 6, five tries used, wrong guess 49: the
session ends with a loss that reveals the target, on the 6th guess. -/
theorem number_guesser_boundary_witness :
    handle_number_guesser_guess "49" { target := 50, guesses := 5, limit := 6 }
      = (none, .lose 50) :=
  (number_guesser_boundary { target := 50, guesses := 5, limit := 6 } "49" 49
      (by decide) (by decide) (by decide)).2.1 (by decide) (by decide)

/-! ## C10 -/

/-- C10: any text parsing as an integer — zero, negative, above 100, or a
signed form like "+50" — is accepted by the number-guesser handler: the try
counter advances (unless the session ends), the reply is never the
not-a-number prompt, the limit can be exhausted into a loss, and a surviving
session gets the too-low/too-high comparison; only unparsable text is
rejected with the state untouched. -/
theorem number_guesser_accepts_any_integer (s : NumState) (text : String)
    (g : Int) (hparse : parseIntPy text = some g) :
    ((handle_number_guesser_guess text s).2 ≠ .notANumber)
    ∧ ((handle_number_guesser_guess text s).1 = none
       ∨ (handle_number_guesser_guess text s).1
           = some { s with guesses := s.guesses + 1 })
    ∧ (g ≠ s.target → s.guesses + 1 ≥ s.limit →
        handle_number_guesser_guess text s = (none, .lose s.target))
    ∧ (g ≠ s.target → s.guesses + 1 < s.limit →
        (handle_number_guesser_guess text s).2
          = if g < s.target then NumReply.tooLow g (s.limit - (s.guesses + 1))
            else NumReply.tooHigh g (s.limit - (s.guesses + 1)))
    ∧ parseIntPy "+50" = some 50 ∧ parseIntPy "0" = some 0
    ∧ parseIntPy "-7" = some (-7) ∧ parseIntPy "999" = some 999
    ∧ (∀ (t : String) (s2 : NumState), parseIntPy t = none →
        handle_number_guesser_guess t s2 = (some s2, .notANumber)) := by
  refine ⟨?_, ?_, ?_, ?_, by decide, by decide, by decide, by decide, ?_⟩
  · simp only [handle_number_guesser_guess, hparse]
    split_ifs <;> simp
  · simp only [handle_number_guesser_guess, hparse]
    split_ifs <;> simp
  · intro hg hge
    simp [handle_number_guesser_guess, hparse, hg, hge]
  · intro hg hge'
    have hge : ¬ s.guesses + 1 ≥ s.limit := by omega
    by_cases hlt : g < s.target
    · simp [handle_number_guesser_guess, hparse, hg, hge, hlt]
    · simp [handle_number_guesser_guess, hparse, hg, hge, hlt]
  · intro t s2 hnone
    simp [handle_number_guesser_guess, hnone]

/-- C10 witness: the signed out-of-range guess "-7" against target 50 is
consumed as a real try and answered with a too-low hint. -/
theorem number_guesser_accepts_any_integer_witness :
    (handle_number_guesser_guess "-7" { target := 50, guesses := 0, limit := 6 }).2
      = if (-7 : Int) < 50 then NumReply.tooLow (-7) (6 - (0 + 1))
        else NumReply.tooHigh (-7) (6 - (0 + 1)) :=
  (number_guesser_accepts_any_integer { target := 50, guesses := 0, limit := 6 }
      "-7" (-7) (by decide)).2.2.2.1 (by decide) (by decide)

/-! ## C6 -/

lemma is_real_word_with_ai_failure (ai : Option String) (word : String)
    (d : DictState) (h : (is_real_word_with_ai ai word d).1 = false) :
    (is_real_word_with_ai ai word d).2 = d := by
  cases ai with
  | none => rfl
  | some resp =>
    by_cases hyes : pyLower (pyStrip resp) = "yes"
    · simp [is_real_word_with_ai, hyes] at h
    · simp [is_real_word_with_ai, hyes]

/-- A one-question trivia session whose question has five options; its fifth
option parses to index 4, which the handler rejects. -/
def demoFiveOpt : TriviaState :=
  { questions := [{ category := none, question := "Q",
                    options := ["W", "X", "Y", "Z", "V"], correct_index := 0 }],
    idx := 0, score := 0 }

/-- C6: invalid input never touches a session.  A Wordle guess that is not
exactly 5 alphabetic letters, or not in the dictionary when the external
validation also fails, only triggers a corrective reply (and the failed
validation leaves the dictionary as it was); unparsable number-guesser text
and trivia answers that resolve to no valid option index likewise leave the
session stored and unchanged. -/
theorem invalid_input_preserves_session :
    (∀ (guess : String) (ai : Option String) (d : DictState) (s : WordleState),
       ¬(guess.toList.length = 5 ∧ pyIsAlpha guess = true) →
       handle_wordle_guess guess ai d s = (some s, .notFiveLetters, d))
    ∧ (∀ (guess : String) (ai : Option String) (d : DictState) (s : WordleState),
       guess.toList.length = 5 → pyIsAlpha guess = true →
       guess ∉ d.valid_guesses → (is_real_word_with_ai ai guess d).1 = false →
       handle_wordle_guess guess ai d s = (some s, .notInDictionary, d))
    ∧ (∀ (text : String) (s : NumState), parseIntPy text = none →
       handle_number_guesser_guess text s = (some s, .notANumber))
    ∧ (∀ (guess : String) (s : TriviaState),
       trivia_chosen_index guess (s.questions.getD s.idx defaultTriviaQ) = none →
       handle_trivia_guess guess s = (some s, [.answerWithABCD]))
    ∧ (∀ (guess : String) (s : TriviaState) (ci : Nat),
       trivia_chosen_index guess (s.questions.getD s.idx defaultTriviaQ) = some ci →
       4 ≤ ci → handle_trivia_guess guess s = (some s, [.answerWithABCD])) := by
  refine ⟨?_, ?_, ?_, ?_, ?_⟩
  · intro guess ai d s hbad
    simp only [handle_wordle_guess]
    rw [if_pos hbad]
  · intro guess ai d s hlen halpha hnotin hfail
    have hd := is_real_word_with_ai_failure ai guess d hfail
    simp only [handle_wordle_guess]
    rw [if_neg (not_not_intro ⟨hlen, halpha⟩)]
    simp [hnotin, hfail, hd]
  · intro text s hnone
    simp [handle_number_guesser_guess, hnone]
  · intro guess s hnone
    have hnone' := hnone
    simp only [List.getD_eq_getElem?_getD] at hnone'
    simp [handle_trivia_guess, hnone']
  · intro guess s ci hsome hci
    have hsome' := hsome
    simp only [List.getD_eq_getElem?_getD] at hsome'
    have hci' : ¬ ci < 4 := by omega
    simp [handle_trivia_guess, hsome', hci']

/-- C6 witness: the five rejection paths at concrete inputs, each leaving
the session exactly as it was. -/
theorem invalid_input_preserves_session_witness :
    handle_wordle_guess "AB1" none { valid_guesses := [], file_lines := [] }
        { word := "CRANE", guesses := [] }
      = (some { word := "CRANE", guesses := [] }, .notFiveLetters,
         { valid_guesses := [], file_lines := [] })
    ∧ handle_wordle_guess "ZZZZZ" none { valid_guesses := [], file_lines := [] }
        { word := "CRANE", guesses := [] }
      = (some { word := "CRANE", guesses := [] }, .notInDictionary,
         { valid_guesses := [], file_lines := [] })
    ∧ handle_number_guesser_guess "FIFTY" { target := 50, guesses := 0, limit := 6 }
      = (some { target := 50, guesses := 0, limit := 6 }, .notANumber)
    ∧ handle_trivia_guess "E" demoTrivia = (some demoTrivia, [.answerWithABCD])
    ∧ handle_trivia_guess "V" demoFiveOpt = (some demoFiveOpt, [.answerWithABCD]) :=
  ⟨invalid_input_preserves_session.1 "AB1" none _ _ (by decide),
   invalid_input_preserves_session.2.1 "ZZZZZ" none _ _ (by decide) (by decide)
     (by decide) (by decide),
   invalid_input_preserves_session.2.2.1 "FIFTY" _ (by decide),
   invalid_input_preserves_session.2.2.2.1 "E" demoTrivia (by decide),
   invalid_input_preserves_session.2.2.2.2 "V" demoFiveOpt 4 (by decide) (by decide)⟩

/-! ## C7 -/

/-- C7 counterexample: a user already mid-hangman for whom a trivia start is
triggered and the fetch fails still has a session in the store afterwards
(the old hangman one), so "no session for that user exists after the
operation" is false as stated; the operation merely refrains from creating
one. -/
theorem trivia_fetch_failure_session_survives :
    (start_trivia_game id none demoStore "U1").2 = .apology
    ∧ (start_trivia_game id none demoStore "U1").1 "U1"
        = some (.hangman { target := "BRAVE", guessed_letters := [], lives := 6 })
    ∧ ¬ (start_trivia_game id none demoStore "U1").1 "U1" = none :=
  ⟨by decide, by decide, by decide⟩

/-- C7 (amended): when the trivia fetch fails (unreachable source, error
status, or empty result list) the start operation sends an apology and does
not create a session: the store is left exactly as it was, so a user who had
no session still has none. -/
theorem trivia_fetch_failure_no_new_session
    (shuffle : List String → List String) (fetch : Option (List TriviaItem))
    (store : String → Option GameSession) (user : String)
    (hfail : fetch = none ∨ fetch = some []) :
    (start_trivia_game shuffle fetch store user).2 = .apology
    ∧ (start_trivia_game shuffle fetch store user).1 = store
    ∧ (store user = none →
        (start_trivia_game shuffle fetch store user).1 user = none) := by
  rcases hfail with h | h <;> subst h <;> exact ⟨rfl, rfl, fun hu => hu⟩

/-- C7 witness: a failed fetch for a user with no session leaves the store
empty and apologises. -/
theorem trivia_fetch_failure_no_new_session_witness :
    (start_trivia_game id none (fun _ => none) "U1").2 = .apology
    ∧ (start_trivia_game id none (fun _ => none) "U1").1 = (fun _ => none)
    ∧ ((fun _ => (none : Option GameSession)) "U1" = none →
        (start_trivia_game id none (fun _ => none) "U1").1 "U1" = none) :=
  trivia_fetch_failure_no_new_session id none (fun _ => none) "U1" (Or.inl rfl)

/-! ## C8 -/

/-- C8 counterexample: two successful validations of the same new word leave
the in-memory set with one entry but append the word to the backing file
list twice — the persisted word list does contain a duplicate entry. -/
theorem dict_growth_duplicate_file_lines :
    (is_real_word_with_ai (some "yes") "ZXCVB"
        (is_real_word_with_ai (some "yes") "ZXCVB"
          { valid_guesses := [], file_lines := [] }).2).2
      = { valid_guesses := ["ZXCVB"], file_lines := ["zxcvb", "zxcvb"] }
    ∧ ¬ ((is_real_word_with_ai (some "yes") "ZXCVB"
        (is_real_word_with_ai (some "yes") "ZXCVB"
          { valid_guesses := [], file_lines := [] }).2).2.file_lines).Nodup :=
  ⟨by decide, by decide⟩

/-- C8 (amended): validating the same new word twice through the success
path is idempotent on the in-memory set — it stays duplicate-free and the
second insert is a no-op — but the persisted backing word list receives one
appended line per successful validation, so after two validations the file
holds the lower-cased word twice (it is de-duplicated only when reloaded
into the set at startup). -/
theorem dict_growth_set_idempotent_file_append (word resp : String)
    (d : DictState) (hyes : pyLower (pyStrip resp) = "yes")
    (hnd : d.valid_guesses.Nodup) :
    ((is_real_word_with_ai (some resp) word d).2.valid_guesses).Nodup
    ∧ (is_real_word_with_ai (some resp) word
         (is_real_word_with_ai (some resp) word d).2).2.valid_guesses
        = (is_real_word_with_ai (some resp) word d).2.valid_guesses
    ∧ (is_real_word_with_ai (some resp) word
         (is_real_word_with_ai (some resp) word d).2).2.file_lines
        = d.file_lines ++ [pyLower word, pyLower word] := by
  by_cases hw : word ∈ d.valid_guesses
  · refine ⟨?_, ?_, ?_⟩ <;>
      simp [is_real_word_with_ai, hyes, hw, hnd]
  · have hnodup : (d.valid_guesses ++ [word]).Nodup := by
      have h := List.Nodup.concat hw hnd
      rwa [List.concat_eq_append] at h
    refine ⟨?_, ?_, ?_⟩ <;>
      simp [is_real_word_with_ai, hyes, hw, hnodup]

/-- C8 witness: a fresh empty dictionary validated twice for ZXCVB: the set
stays duplicate-free and unchanged by the second insert, the file gains two
copies of the line. -/
theorem dict_growth_set_idempotent_file_append_witness :
    ((is_real_word_with_ai (some "yes") "ZXCVB"
        { valid_guesses := [], file_lines := [] }).2.valid_guesses).Nodup
    ∧ (is_real_word_with_ai (some "yes") "ZXCVB"
         (is_real_word_with_ai (some "yes") "ZXCVB"
           { valid_guesses := [], file_lines := [] }).2).2.valid_guesses
        = (is_real_word_with_ai (some "yes") "ZXCVB"
            { valid_guesses := [], file_lines := [] }).2.valid_guesses
    ∧ (is_real_word_with_ai (some "yes") "ZXCVB"
         (is_real_word_with_ai (some "yes") "ZXCVB"
           { valid_guesses := [], file_lines := [] }).2).2.file_lines
        = ([] : List String) ++ [pyLower "ZXCVB", pyLower "ZXCVB"] :=
  dict_growth_set_idempotent_file_append "ZXCVB" "yes"
    { valid_guesses := [], file_lines := [] } (by decide) (by decide)

/-! ## C9 -/

/-- C9: the Wordle local fallback word is a deterministic function of the
calendar day's ordinal and the answer pool alone: whatever PRNG state two
invocations (any users, any order, any processes) start from, reseeding by
the day's ordinal makes them return the identical word, and that word comes
from the answer pool. -/
theorem fallback_word_deterministic (r1 r2 : PyRandom) (ordinal : Nat)
    (answers : List String) (h : answers ≠ []) :
    (get_fallback_word r1 ordinal answers).1
      = (get_fallback_word r2 ordinal answers).1
    ∧ (get_fallback_word r1 ordinal answers).1 ∈ answers := by
  refine ⟨rfl, ?_⟩
  show answers.getD ((random_seed ordinal).state % answers.length) "" ∈ answers
  have hlen : 0 < answers.length := List.length_pos.mpr h
  exact getD_mem answers _ (Nat.mod_lt _ hlen)

/-- C9 witness: two processes with different PRNG states get the same
fallback word on the same day, a member of the pool. -/
theorem fallback_word_deterministic_witness :
    (["CRANE", "BRAVE"] : List String) ≠ []
    ∧ ((get_fallback_word { state := 0 } 739000 ["CRANE", "BRAVE"]).1
        = (get_fallback_word { state := 12345 } 739000 ["CRANE", "BRAVE"]).1
      ∧ (get_fallback_word { state := 0 } 739000 ["CRANE", "BRAVE"]).1
          ∈ ["CRANE", "BRAVE"]) :=
  ⟨by decide,
   fallback_word_deterministic { state := 0 } { state := 12345 } 739000
     ["CRANE", "BRAVE"] (by decide)⟩
